import Mathlib

/-!
Shallow embedding of the Signet intent-discovery and bundle-delivery core
(crates solver-discovery and solver-delivery, signet implementations),
together with theorems settling the specification claims.

Machine integers (u64) are modelled as Nat; the only place overflow behaviour
matters is the deadline parse in fill creation, where the source converts a
U256 to u64 via string parsing, modelled by an explicit bound 2 ^ 64.
External library services (the cache HTTP client, the RPC provider, RLP
encoding, fill signing) are modelled at their interface boundary, as the
specification directs; each such modelling choice is recorded in the doc
comment of the definition that makes it.
-/

namespace Signet

/-- 20-byte EVM address, modelled as a natural number (its numeric value). -/
abbrev Address := Nat

/-- The Permit2 permit data reached by order.permit.permit in the source:
nonce and deadline (both U256 in the library; modelled as Nat). Owner and
signature are never read by this core and are omitted. -/
structure Permit where
  nonce : Nat
  deadline : Nat
deriving DecidableEq, Repr

/-- The permit wrapper on a signed order: order.permit.permit reaches the
Permit data. -/
structure Permit2Batch where
  permit : Permit
deriving DecidableEq, Repr

/-- One desired output of a cross-chain order: destination chain id (read as
u64 in the source), token, amount, recipient. -/
structure Output where
  chainId : Nat
  token : Address
  amount : Nat
  recipient : Address
deriving DecidableEq, Repr

/-- A signed Permit2 cross-chain order as consumed by this core: the permit
wrapper and the ordered list of desired outputs. -/
structure SignedOrder where
  permit : Permit2Batch
  outputs : List Output
deriving DecidableEq, Repr

/-- Discovery error type; the constructors are the ones the source
constructs: ValidationError, ParseError and AlreadyMonitoring. -/
inductive DiscoveryError where
  | ValidationError (msg : String)
  | ParseError (msg : String)
  | AlreadyMonitoring
deriving DecidableEq, Repr

/-- Intent discovery metadata: auction-requirement flag, optional exclusivity
deadline, discovery timestamp. -/
structure IntentMetadata where
  requires_auction : Bool
  exclusive_until : Option Nat
  discovered_at : Nat
deriving DecidableEq, Repr

/-- Serialization of an order to bytes (serde_json::to_vec in the source).
Serializing a plain data structure is total; the byte content is opaque to
this core, so it is modelled by a flat numeric encoding of the fields read
by this core. -/
def serializeOrder (o : SignedOrder) : List Nat :=
  o.permit.permit.nonce :: o.permit.permit.deadline ::
    o.outputs.map Output.chainId

/-- The solver-internal intent produced by discovery. The data field holds
the serialized order (serde_json::to_value in the source, a total
serialization of a plain structure, modelled by the order itself). -/
structure Intent where
  id : String
  source : String
  standard : String
  metadata : IntentMetadata
  data : SignedOrder
  order_bytes : List Nat
  quote_id : Option String
  lock_type : String
deriving DecidableEq, Repr

/-- SignetCacheDiscovery.order_to_intent: converts a signed order to an
intent. The id is the string "signet-" followed by the permit nonce.
current_timestamp() is ambient in the source and is passed here as the
parameter now. The two serde serializations in the source cannot fail on a
plain data structure, so the ParseError branches are unreachable and the
conversion always returns ok. -/
def order_to_intent (now : Nat) (order : SignedOrder) :
    Except DiscoveryError Intent :=
  let id := "signet-" ++ toString order.permit.permit.nonce
  Except.ok
    { id := id
      source := "signet-cache"
      standard := "permit2"
      metadata :=
        { requires_auction := false
          exclusive_until := none
          discovered_at := now }
      data := order
      order_bytes := serializeOrder order
      quote_id := none
      lock_type := "permit2" }

/-- The mutable monitoring state of a discovery instance: the atomic
is_monitoring flag, whether a task handle is stored, whether a stop-signal
sender is stored. -/
structure MonitoringState where
  is_monitoring : Bool
  monitoring_handle : Bool
  stop_signal : Bool
deriving DecidableEq, Repr

/-- The state a freshly constructed discovery instance holds: flag false,
no handle, no stop signal. -/
def MonitoringState.initial : MonitoringState :=
  { is_monitoring := false, monitoring_handle := false, stop_signal := false }

/-- SignetCacheDiscovery.start_monitoring, as a sequential state transition:
if already monitoring, fail with AlreadyMonitoring and leave the state
unchanged; otherwise store a fresh stop signal, spawn the polling task
(storing its handle) and set the flag. The spawned task itself is external
concurrency and is not modelled. -/
def start_monitoring (s : MonitoringState) :
    Except DiscoveryError Unit × MonitoringState :=
  if s.is_monitoring then
    (Except.error DiscoveryError.AlreadyMonitoring, s)
  else
    (Except.ok (),
      { is_monitoring := true, monitoring_handle := true, stop_signal := true })

/-- SignetCacheDiscovery.stop_monitoring, as a sequential state transition:
if not monitoring, succeed immediately leaving the state unchanged;
otherwise take and fire the stop signal, take and await the handle, and
clear the flag. -/
def stop_monitoring (s : MonitoringState) :
    Except DiscoveryError Unit × MonitoringState :=
  if s.is_monitoring then
    (Except.ok (),
      { is_monitoring := false, monitoring_handle := false,
        stop_signal := false })
  else
    (Except.ok (), s)

/-- Maximum polling interval in seconds (MAX_POLLING_INTERVAL_SECS). -/
def MAX_POLLING_INTERVAL_SECS : Nat := 300

/-- Default polling interval in seconds (DEFAULT_POLLING_INTERVAL_SECS). -/
def DEFAULT_POLLING_INTERVAL_SECS : Nat := 5

/-- Signet cache discovery configuration: chain name, polling interval in
seconds (u64, modelled as Nat), optional whitelist. -/
structure SignetCacheConfig where
  chain_name : String
  polling_interval_secs : Nat
  whitelist_addresses : Option (List String)
deriving DecidableEq, Repr

/-- A Signet cache discovery instance: its configuration and its monitoring
state (the source spreads the state over three Arc fields; they are grouped
into MonitoringState here). -/
structure SignetCacheDiscovery where
  config : SignetCacheConfig
  state : MonitoringState
deriving DecidableEq, Repr

/-- SignetCacheDiscovery.new: validates the chain name (nonempty) and the
polling interval (nonzero and at most MAX_POLLING_INTERVAL_SECS), then
returns an instance with fresh monitoring state. -/
def SignetCacheDiscovery.new (config : SignetCacheConfig) :
    Except DiscoveryError SignetCacheDiscovery :=
  if config.chain_name = "" then
    Except.error (DiscoveryError.ValidationError "chain_name cannot be empty")
  else if config.polling_interval_secs = 0 ∨
      config.polling_interval_secs > MAX_POLLING_INTERVAL_SECS then
    Except.error (DiscoveryError.ValidationError
      ("polling_interval_secs must be between 1 and " ++
        toString MAX_POLLING_INTERVAL_SECS))
  else
    Except.ok { config := config, state := MonitoringState.initial }

/-- SignetCacheDiscovery.matches_whitelist: the whitelist predicate is a
stub that accepts every order regardless of the configured list. -/
def matches_whitelist (_order : SignedOrder)
    (_whitelist : Option (List String)) : Bool :=
  true

/-- Modelled from the spec: the delivery error type lives in the crate root,
outside the given sources; the sources construct only its Network variant,
and the error taxonomy of the specification (section 7) names validation,
network and parse classes, modelled here as constructors. -/
inductive DeliveryError where
  | Validation (msg : String)
  | Network (msg : String)
  | Parse (msg : String)
deriving DecidableEq, Repr

/-- Whether a delivery error is of the validation class. -/
def DeliveryError.isValidation : DeliveryError → Bool
  | DeliveryError.Validation _ => true
  | _ => false

/-- Default fallback block number (DEFAULT_BLOCK_NUMBER). -/
def DEFAULT_BLOCK_NUMBER : Nat := 1

/-- Number of consecutive target blocks for the fan-out
(NUM_TARGET_BLOCKS). -/
def NUM_TARGET_BLOCKS : Nat := 10

/-- Default gas limit for transactions (DEFAULT_GAS_LIMIT). -/
def DEFAULT_GAS_LIMIT : Nat := 1000000

/-- Default priority fee multiplier (DEFAULT_PRIORITY_FEE_MULTIPLIER). -/
def DEFAULT_PRIORITY_FEE_MULTIPLIER : Nat := 16

/-- Multiplier converting gwei to wei (GWEI_TO_WEI). -/
def GWEI_TO_WEI : Nat := 1000000000

/-- Signet bundle delivery configuration. -/
structure SignetBundleConfig where
  chain_name : String
  target_block : Option Nat
  rollup_chain_id : Nat
  host_chain_id : Nat
  order_origin_address : Address
  order_destination_address : Address
  filler_recipient : Address
deriving DecidableEq, Repr

/-- One entry of a network's rpc_urls list; only the optional http url is
read by this core. -/
structure RpcUrl where
  http : Option String
deriving DecidableEq, Repr

/-- Per-chain network configuration; only the rpc_urls list is read. -/
structure NetworkConfig where
  rpc_urls : List RpcUrl
deriving DecidableEq, Repr

/-- Networks configuration: a map from chain id to network configuration,
modelled as an association list. -/
abbrev NetworksConfig := List (Nat × NetworkConfig)

/-- A Signet bundle delivery instance: configuration, networks and the
signer (modelled by its address, the only value of it this embedding
reads). The cache client is an external handle and carries no state read
by this core. -/
structure SignetBundleDelivery where
  config : SignetBundleConfig
  networks : NetworksConfig
  signer : Address
deriving DecidableEq, Repr

/-- SignetBundleDelivery.new: rejects an empty chain name with a
Network-tagged delivery error, then builds the cache client (an external
constructor, modelled as succeeding: for the preset name it is a preset
client, otherwise a client over the chain-name-derived URL) and returns the
instance. -/
def SignetBundleDelivery.new (config : SignetBundleConfig)
    (networks : NetworksConfig) (signer : Address) :
    Except DeliveryError SignetBundleDelivery :=
  if config.chain_name = "" then
    Except.error (DeliveryError.Network "chain_name cannot be empty")
  else
    Except.ok { config := config, networks := networks, signer := signer }

/-- A per-chain signed fill as produced by the external fill signer,
modelled by the data this core hands to it: the chain id it was configured
for (with_chain), the order contract address for that chain, and the fill
deadline. -/
structure SignedFill where
  chainId : Nat
  orderContract : Address
  deadline : Nat
deriving DecidableEq, Repr

/-- A rollup transaction request, before signing: either a fill transaction
(SignedFill.to_fill_tx against the order contract) or an order-initiation
transaction (SignedOrder.to_initiate_tx with the filler recipient and the
order contract). The request builders are external; the request is modelled
by the data handed to them. -/
inductive TxRequest where
  | fillTx (fill : SignedFill) (orderContract : Address)
  | initiateTx (order : SignedOrder) (fillerRecipient : Address)
      (orderContract : Address)
deriving DecidableEq, Repr

/-- A signed, encoded transaction as produced by provider.fill followed by
EIP-2718 encoding, modelled by the resolved fields this core sets or the
provider resolves: the nonce, the sender, the gas limit, the priority fee,
and the request it encodes. -/
structure EncodedTx where
  nonce : Nat
  sender : Address
  gas_limit : Nat
  max_priority_fee_per_gas : Nat
  request : TxRequest
deriving DecidableEq, Repr

/-- SignetBundleDelivery.sign_and_encode_txns: looks up the rollup chain's
network configuration and its first HTTP RPC URL (failing with the source's
Network errors when absent), then processes the requests sequentially: each
request gets the signer as sender, the default gas limit and priority fee,
and the shared provider resolves the remaining fields — modelled by nonces
assigned in strictly increasing order from an ambient chain nonce passed as
baseNonce. URL parsing and the per-request provider resolution and encoding
are external operations modelled as succeeding. -/
def sign_and_encode_txns (d : SignetBundleDelivery) (baseNonce : Nat)
    (tx_requests : List TxRequest) : Except DeliveryError (List EncodedTx) :=
  match List.lookup d.config.rollup_chain_id d.networks with
  | none =>
    Except.error (DeliveryError.Network
      ("No network config for rollup chain " ++
        toString d.config.rollup_chain_id))
  | some network_config =>
    match network_config.rpc_urls.head?.bind RpcUrl.http with
    | none =>
      Except.error (DeliveryError.Network
        ("No HTTP RPC URL for chain " ++ toString d.config.rollup_chain_id))
    | some _rpc_url =>
      Except.ok (tx_requests.enum.map (fun p =>
        { nonce := baseNonce + p.1
          sender := d.signer
          gas_limit := DEFAULT_GAS_LIMIT
          max_priority_fee_per_gas :=
            GWEI_TO_WEI * DEFAULT_PRIORITY_FEE_MULTIPLIER
          request := p.2 }))

/-- The order contract address this core configures for a chain id: the
origin contract for the rollup chain, the destination contract for the host
chain, none for any other chain (those are skipped with a warning). -/
def fillAddress (cfg : SignetBundleConfig) (chain_id : Nat) : Option Address :=
  if chain_id = cfg.rollup_chain_id then some cfg.order_origin_address
  else if chain_id = cfg.host_chain_id then some cfg.order_destination_address
  else none

/-- The fill map produced by the external fill signer for a configured
chain list. Modelled from the spec: the signer returns one signed fill per
target chain id configured via with_chain, keyed by chain id. -/
def mk_signed_fills (cfg : SignetBundleConfig) (deadline : Nat)
    (target_chain_ids : List Nat) : List (Nat × SignedFill) :=
  target_chain_ids.filterMap (fun c =>
    (fillAddress cfg c).map (fun a =>
      (c, SignedFill.mk c a deadline)))

/-- SignetBundleDelivery.create_signed_fills: parses the permit deadline
(U256 printed and reparsed as u64 in the source — fails exactly when the
value does not fit in 64 bits), aggregates the order, collects the distinct
destination chain ids of the order's outputs (a HashSet in the source,
modelled as dedup; all claims on it are set-level), configures the unsigned
fill with the order contract address of each chain that has one (others are
skipped with a warning), and signs, yielding one fill per configured
chain. -/
def create_signed_fills (d : SignetBundleDelivery)
    (signed_order : SignedOrder) :
    Except DeliveryError (List (Nat × SignedFill)) :=
  if signed_order.permit.permit.deadline < 2 ^ 64 then
    let deadline := signed_order.permit.permit.deadline
    let target_chain_ids := (signed_order.outputs.map Output.chainId).dedup
    Except.ok (mk_signed_fills d.config deadline target_chain_ids)
  else
    Except.error (DeliveryError.Network
      "Invalid deadline in order permit: number too large to fit in target type")

/-- The metadata value carried by a fulfillment transaction
(serde_json::Value in the source): either a value that deserializes to a
signed order, or one that does not. -/
inductive TxMetadata where
  | signedOrder (o : SignedOrder)
  | malformed
deriving DecidableEq, Repr

/-- serde_json::from_value for SignedOrder over the metadata model. -/
def deserialize_signed_order : TxMetadata → Option SignedOrder
  | TxMetadata.signedOrder o => some o
  | TxMetadata.malformed => none

/-- A solver fulfillment transaction, restricted to the fields this core
reads: raw transaction data and the optional metadata value. -/
structure SolverTransaction where
  data : List Nat
  metadata : Option TxMetadata
deriving DecidableEq, Repr

/-- SignetBundleDelivery.get_block_number: a best-effort external RPC call;
rpc_result models its outcome (none covers a missing network config, a
missing URL and an RPC failure alike). On none it falls back to the
configured target_block or DEFAULT_BLOCK_NUMBER. -/
def get_block_number (d : SignetBundleDelivery) (rpc_result : Option Nat) :
    Nat :=
  match rpc_result with
  | some block_number => block_number
  | none => d.config.target_block.getD DEFAULT_BLOCK_NUMBER

/-- The inner EthSendBundle of a Signet bundle. -/
structure EthSendBundle where
  txs : List EncodedTx
  block_number : Nat
  min_timestamp : Option Nat
  max_timestamp : Option Nat
  reverting_tx_hashes : List (List Nat)
  replacement_uuid : Option String
deriving DecidableEq, Repr

/-- A Signet bundle: the inner bundle, the optional host-chain fill, and
the host transaction list. -/
structure SignetEthBundle where
  bundle : EthSendBundle
  host_fills : Option SignedFill
  host_txs : List (List Nat)
deriving DecidableEq, Repr

/-- SignetBundleDelivery.create_bundles: extracts the signed order from the
transaction metadata (failing with the source's no-order Network error when
the metadata field is absent, and with a deserialization Network error when
it does not parse), observes the current rollup block (get_block_number),
creates the signed fills, builds the rollup request list (the rollup
chain's fill first when it exists, the initiation request always last),
signs and encodes the requests together, separates the host chain's fill
into the host-fill field, and fans out one bundle per target block
current_block + 1 .. current_block + NUM_TARGET_BLOCKS, each reusing the
identical encoded transactions and host fill. The two-second sleep before
the fan-out is real time and not modelled. -/
def create_bundles (d : SignetBundleDelivery) (rpc_block : Option Nat)
    (baseNonce : Nat) (tx : SolverTransaction) :
    Except DeliveryError (List SignetEthBundle) :=
  match tx.metadata with
  | none =>
    Except.error (DeliveryError.Network
      "No SignedOrder metadata in transaction for Signet bundle")
  | some metadata =>
    match deserialize_signed_order metadata with
    | none =>
      Except.error (DeliveryError.Network
        "Failed to deserialize SignedOrder from metadata")
    | some signed_order =>
      let current_block := get_block_number d rpc_block
      match create_signed_fills d signed_order with
      | Except.error e => Except.error e
      | Except.ok signed_fills =>
        let rollup_tx_requests :=
          (match List.lookup d.config.rollup_chain_id signed_fills with
           | some rollup_fill =>
             [TxRequest.fillTx rollup_fill d.config.order_origin_address]
           | none => []) ++
          [TxRequest.initiateTx signed_order d.config.filler_recipient
            d.config.order_origin_address]
        match sign_and_encode_txns d baseNonce rollup_tx_requests with
        | Except.error e => Except.error e
        | Except.ok rollup_txs =>
          let host_fills :=
            List.lookup d.config.host_chain_id signed_fills
          Except.ok ((List.range NUM_TARGET_BLOCKS).map (fun i =>
            { bundle :=
                { txs := rollup_txs
                  block_number := current_block + i + 1
                  min_timestamp := none
                  max_timestamp := none
                  reverting_tx_hashes := []
                  replacement_uuid := none }
              host_fills := host_fills
              host_txs := [] }))

/-- The cache's acknowledgment for a submitted bundle: its identifier. -/
structure TxCacheSendBundleResponse where
  id : String
deriving DecidableEq, Repr

/-- The delivery handle returned by submit: the bytes of the acknowledgment
identifier string. -/
structure TransactionHash where
  bytes : String
deriving DecidableEq, Repr

/-- The submission loop of SignetBundleDelivery.submit, instrumented with
the list of bundles actually handed to the cache client: submits bundles in
order; on the first failing submission it stops and returns the source's
Network error naming that bundle's target block number; on success it
records the acknowledgment id and continues, ending with the last recorded
id (the accumulator starts as the empty string in the source).
forward_bundle models the external cache client call. -/
def submit_bundles_loop
    (forward_bundle : SignetEthBundle → Except String TxCacheSendBundleResponse)
    (bundles : List SignetEthBundle) (last_bundle_id : String) :
    (Except DeliveryError String) × List SignetEthBundle :=
  match bundles with
  | [] => (Except.ok last_bundle_id, [])
  | b :: rest =>
    match forward_bundle b with
    | Except.error e =>
      (Except.error (DeliveryError.Network
        ("Failed to submit bundle for block " ++
          toString b.bundle.block_number ++ ": " ++ e)), [b])
    | Except.ok response =>
      let r := submit_bundles_loop forward_bundle rest response.id
      (r.1, b :: r.2)

/-- SignetBundleDelivery.submit: creates the bundles from the transaction,
submits them sequentially through the loop, and on full success returns the
last submitted bundle's acknowledgment id as the transaction hash (its
bytes). -/
def submit (d : SignetBundleDelivery) (rpc_block : Option Nat)
    (baseNonce : Nat)
    (forward_bundle : SignetEthBundle → Except String TxCacheSendBundleResponse)
    (tx : SolverTransaction) : Except DeliveryError TransactionHash :=
  match create_bundles d rpc_block baseNonce tx with
  | Except.error e => Except.error e
  | Except.ok bundles =>
    match (submit_bundles_loop forward_bundle bundles "").1 with
    | Except.error e => Except.error e
    | Except.ok last_bundle_id =>
      Except.ok { bytes := last_bundle_id }

/-- Example fixture: a bundle with a given block number and no
transactions, used to instantiate submission-driver theorems at concrete
inputs. -/
def exampleBundle (block_number : Nat) : SignetEthBundle :=
  { bundle :=
      { txs := []
        block_number := block_number
        min_timestamp := none
        max_timestamp := none
        reverting_tx_hashes := []
        replacement_uuid := none }
    host_fills := none
    host_txs := [] }

/-- Example fixture: a cache client that rejects the bundle targeting
block 3 and acknowledges every other bundle with the id "ok". -/
def exampleForward (b : SignetEthBundle) :
    Except String TxCacheSendBundleResponse :=
  if b.bundle.block_number = 3 then Except.error "boom"
  else Except.ok ⟨"ok"⟩

/-- Example fixture: a delivery instance over rollup chain 901 and host
chain 1 with an HTTP RPC URL configured for the rollup chain. -/
def exampleDelivery : SignetBundleDelivery :=
  { config :=
      { chain_name := "pecorino"
        target_block := none
        rollup_chain_id := 901
        host_chain_id := 1
        order_origin_address := 10
        order_destination_address := 11
        filler_recipient := 12 }
    networks := [(901, { rpc_urls := [{ http := some "http rollup url" }] })]
    signer := 99 }

/-- Example fixture: an order with nonce 42 and deadline 1000 whose
outputs target the rollup chain 901 and the host chain 1. -/
def exampleOrder : SignedOrder :=
  { permit := { permit := { nonce := 42, deadline := 1000 } }
    outputs := [⟨901, 5, 100, 6⟩, ⟨1, 5, 100, 6⟩] }

/-- Example fixture: a fulfillment transaction carrying exampleOrder as
its metadata payload. -/
def exampleTransaction : SolverTransaction :=
  { data := [], metadata := some (TxMetadata.signedOrder exampleOrder) }

/-- Looking up a chain id in the fill map produced for a chain list yields
the fill determined by fillAddress exactly when the chain id is in the
list. -/
theorem lookup_mk_signed_fills (cfg : SignetBundleConfig) (deadline : Nat)
    (l : List Nat) (k : Nat) :
    List.lookup k (mk_signed_fills cfg deadline l) =
      if k ∈ l then
        (fillAddress cfg k).map (fun a => SignedFill.mk k a deadline)
      else none := by
  induction l with
  | nil => simp [mk_signed_fills]
  | cons c t ih =>
    unfold mk_signed_fills at ih ⊢
    cases ha : fillAddress cfg c with
    | none =>
      simp only [List.filterMap_cons, ha, Option.map_none']
      rw [ih]
      by_cases hk : k = c
      · subst hk
        simp [ha]
      · simp [hk]
    | some a =>
      simp only [List.filterMap_cons, ha, Option.map_some']
      rw [List.lookup_cons]
      by_cases hk : k = c
      · subst hk
        simp [ha]
      · rw [beq_false_of_ne hk]
        rw [ih]
        simp [hk]

/-- C2: for every signed order with permit nonce n, order-to-intent
conversion succeeds and the produced intent's id is exactly the string
"signet-" followed by n; the id depends only on the permit nonce, so
converting any two orders with the same nonce — in particular the same
order any number of times — yields the same id. -/
theorem order_to_intent_id (now now' : Nat) (o o' : SignedOrder) :
    ∃ i i', order_to_intent now o = Except.ok i ∧
      order_to_intent now' o' = Except.ok i' ∧
      i.id = "signet-" ++ toString o.permit.permit.nonce ∧
      (o.permit.permit.nonce = o'.permit.permit.nonce → i.id = i'.id) := by
  refine ⟨_, _, rfl, rfl, rfl, fun h => ?_⟩
  simp only [order_to_intent, h]

/-- Witness for order_to_intent_id at a concrete order with nonce 42,
converted at two different timestamps. -/
theorem order_to_intent_id_witness :
    ∃ i i', order_to_intent 7 ⟨⟨⟨42, 1000⟩⟩, []⟩ = Except.ok i ∧
      order_to_intent 8 ⟨⟨⟨42, 1000⟩⟩, [⟨901, 5, 100, 6⟩]⟩ = Except.ok i' ∧
      i.id = "signet-" ++ toString (42 : Nat) ∧
      ((42 : Nat) = 42 → i.id = i'.id) :=
  order_to_intent_id 7 8 ⟨⟨⟨42, 1000⟩⟩, []⟩ ⟨⟨⟨42, 1000⟩⟩, [⟨901, 5, 100, 6⟩]⟩

/-- C10: for every signed order that converts successfully, the intent's
non-order-derived fields are the fixed constants: source "signet-cache",
standard "permit2", lock_type "permit2", no quote id, auction not required,
no exclusivity deadline. -/
theorem order_to_intent_constant_fields (now : Nat) (o : SignedOrder) :
    ∃ i, order_to_intent now o = Except.ok i ∧
      i.source = "signet-cache" ∧ i.standard = "permit2" ∧
      i.lock_type = "permit2" ∧ i.quote_id = none ∧
      i.metadata.requires_auction = false ∧
      i.metadata.exclusive_until = none :=
  ⟨_, rfl, rfl, rfl, rfl, rfl, rfl, rfl⟩

/-- C4: a freshly constructed discovery instance starts in the initial
monitoring state; on it, stop_monitoring before any start_monitoring
succeeds as a no-op (state unchanged), a first start_monitoring succeeds,
and a second start_monitoring without an intervening stop fails with
AlreadyMonitoring. -/
theorem lifecycle_stop_noop_start_twice (cfg : SignetCacheConfig)
    (disc : SignetCacheDiscovery)
    (hnew : SignetCacheDiscovery.new cfg = Except.ok disc) :
    (stop_monitoring disc.state).1 = Except.ok () ∧
    (stop_monitoring disc.state).2 = disc.state ∧
    (start_monitoring disc.state).1 = Except.ok () ∧
    (start_monitoring (start_monitoring disc.state).2).1 =
      Except.error DiscoveryError.AlreadyMonitoring := by
  have hstate : disc.state = MonitoringState.initial := by
    unfold SignetCacheDiscovery.new at hnew
    split at hnew
    · cases hnew
    · split at hnew
      · cases hnew
      · cases hnew; rfl
  rw [hstate]
  exact ⟨rfl, rfl, rfl, rfl⟩

/-- Witness for lifecycle_stop_noop_start_twice on an instance freshly
constructed from a concrete valid configuration. -/
theorem lifecycle_stop_noop_start_twice_witness :
    (stop_monitoring (SignetCacheDiscovery.mk ⟨"pecorino", 5, none⟩
      MonitoringState.initial).state).1 = Except.ok () ∧
    (stop_monitoring (SignetCacheDiscovery.mk ⟨"pecorino", 5, none⟩
      MonitoringState.initial).state).2 =
      (SignetCacheDiscovery.mk ⟨"pecorino", 5, none⟩
        MonitoringState.initial).state ∧
    (start_monitoring (SignetCacheDiscovery.mk ⟨"pecorino", 5, none⟩
      MonitoringState.initial).state).1 = Except.ok () ∧
    (start_monitoring (start_monitoring
      (SignetCacheDiscovery.mk ⟨"pecorino", 5, none⟩
        MonitoringState.initial).state).2).1 =
      Except.error DiscoveryError.AlreadyMonitoring :=
  lifecycle_stop_noop_start_twice ⟨"pecorino", 5, none⟩ _ (by rfl)

/-- C8: for every configuration whose polling interval is outside [1, 300]
(as a u64: zero or above 300), discovery construction fails with a
validation error; for every interval within [1, 300] (the boundaries
included) and a nonempty chain name, construction succeeds. -/
theorem new_polling_interval_validation (cfg : SignetCacheConfig) :
    ((cfg.polling_interval_secs = 0 ∨ cfg.polling_interval_secs > 300) →
      ∃ msg, SignetCacheDiscovery.new cfg =
        Except.error (DiscoveryError.ValidationError msg)) ∧
    (1 ≤ cfg.polling_interval_secs → cfg.polling_interval_secs ≤ 300 →
      cfg.chain_name ≠ "" →
      SignetCacheDiscovery.new cfg =
        Except.ok { config := cfg, state := MonitoringState.initial }) := by
  constructor
  · intro h
    unfold SignetCacheDiscovery.new
    by_cases hc : cfg.chain_name = ""
    · exact ⟨"chain_name cannot be empty", by rw [if_pos hc]⟩
    · refine ⟨"polling_interval_secs must be between 1 and " ++
        toString MAX_POLLING_INTERVAL_SECS, ?_⟩
      rw [if_neg hc, if_pos]
      simpa [MAX_POLLING_INTERVAL_SECS] using h
  · intro h1 h2 hc
    unfold SignetCacheDiscovery.new
    have hcond : ¬(cfg.polling_interval_secs = 0 ∨
        cfg.polling_interval_secs > MAX_POLLING_INTERVAL_SECS) := by
      simp only [MAX_POLLING_INTERVAL_SECS]
      omega
    rw [if_neg hc, if_neg hcond]

/-- Witness for new_polling_interval_validation at the boundary intervals
1 and 300 (success) and the out-of-range intervals 0 and 301 (validation
failure). -/
theorem new_polling_interval_validation_witness :
    SignetCacheDiscovery.new ⟨"pecorino", 1, none⟩ =
      Except.ok ⟨⟨"pecorino", 1, none⟩, MonitoringState.initial⟩ ∧
    SignetCacheDiscovery.new ⟨"pecorino", 300, none⟩ =
      Except.ok ⟨⟨"pecorino", 300, none⟩, MonitoringState.initial⟩ ∧
    (∃ msg, SignetCacheDiscovery.new ⟨"pecorino", 0, none⟩ =
      Except.error (DiscoveryError.ValidationError msg)) ∧
    (∃ msg, SignetCacheDiscovery.new ⟨"pecorino", 301, none⟩ =
      Except.error (DiscoveryError.ValidationError msg)) :=
  ⟨(new_polling_interval_validation ⟨"pecorino", 1, none⟩).2
      (by decide) (by decide) (by decide),
    (new_polling_interval_validation ⟨"pecorino", 300, none⟩).2
      (by decide) (by decide) (by decide),
    (new_polling_interval_validation ⟨"pecorino", 0, none⟩).1 (Or.inl rfl),
    (new_polling_interval_validation ⟨"pecorino", 301, none⟩).1
      (Or.inr (by decide))⟩

/-- C9 counterexample: at the concrete empty chain name, the delivery
component's construction failure is the Network-tagged delivery error, not
a validation-classed one, so the claim that both components fail with a
validation error is false as stated. -/
theorem new_empty_chain_name_counterexample :
    SignetBundleDelivery.new ⟨"", none, 901, 1, 10, 11, 12⟩ [] 99 =
      Except.error (DeliveryError.Network "chain_name cannot be empty") ∧
    DeliveryError.isValidation
      (DeliveryError.Network "chain_name cannot be empty") = false :=
  ⟨rfl, rfl⟩

/-- C9 (amended): constructing either component with an empty chain name
fails; the discovery component fails with a validation error, while the
delivery component fails with an error tagged as a network error, in both
cases with the message that the chain name cannot be empty. -/
theorem new_empty_chain_name (ccfg : SignetCacheConfig)
    (dcfg : SignetBundleConfig) (networks : NetworksConfig)
    (signer : Address) (hc : ccfg.chain_name = "")
    (hd : dcfg.chain_name = "") :
    SignetCacheDiscovery.new ccfg =
      Except.error
        (DiscoveryError.ValidationError "chain_name cannot be empty") ∧
    SignetBundleDelivery.new dcfg networks signer =
      Except.error (DeliveryError.Network "chain_name cannot be empty") := by
  constructor
  · unfold SignetCacheDiscovery.new
    rw [if_pos hc]
  · unfold SignetBundleDelivery.new
    rw [if_pos hd]

/-- Witness for new_empty_chain_name at concrete configurations with empty
chain names. -/
theorem new_empty_chain_name_witness :
    SignetCacheDiscovery.new ⟨"", 5, none⟩ =
      Except.error
        (DiscoveryError.ValidationError "chain_name cannot be empty") ∧
    SignetBundleDelivery.new ⟨"", none, 901, 1, 10, 11, 12⟩ [] 99 =
      Except.error (DeliveryError.Network "chain_name cannot be empty") :=
  new_empty_chain_name ⟨"", 5, none⟩ ⟨"", none, 901, 1, 10, 11, 12⟩ [] 99
    rfl rfl

/-- C6: for every fulfillment transaction whose metadata field is absent,
bundle creation — and with it the whole delivery call — fails with the
descriptive no-order error rather than producing any bundle. -/
theorem create_bundles_no_metadata (d : SignetBundleDelivery)
    (rpc_block : Option Nat) (baseNonce : Nat)
    (forward_bundle :
      SignetEthBundle → Except String TxCacheSendBundleResponse)
    (tx : SolverTransaction) (h : tx.metadata = none) :
    create_bundles d rpc_block baseNonce tx =
      Except.error (DeliveryError.Network
        "No SignedOrder metadata in transaction for Signet bundle") ∧
    submit d rpc_block baseNonce forward_bundle tx =
      Except.error (DeliveryError.Network
        "No SignedOrder metadata in transaction for Signet bundle") := by
  have h1 : create_bundles d rpc_block baseNonce tx =
      Except.error (DeliveryError.Network
        "No SignedOrder metadata in transaction for Signet bundle") := by
    unfold create_bundles
    rw [h]
  refine ⟨h1, ?_⟩
  unfold submit
  rw [h1]

/-- Witness for create_bundles_no_metadata at a concrete metadata-less
transaction. -/
theorem create_bundles_no_metadata_witness :
    create_bundles ⟨⟨"pecorino", none, 901, 1, 10, 11, 12⟩, [], 99⟩
      (some 50) 0 { data := [1, 2, 3], metadata := none } =
      Except.error (DeliveryError.Network
        "No SignedOrder metadata in transaction for Signet bundle") ∧
    submit ⟨⟨"pecorino", none, 901, 1, 10, 11, 12⟩, [], 99⟩ (some 50) 0
      (fun _ => Except.ok ⟨"ack"⟩)
      { data := [1, 2, 3], metadata := none } =
      Except.error (DeliveryError.Network
        "No SignedOrder metadata in transaction for Signet bundle") :=
  create_bundles_no_metadata ⟨⟨"pecorino", none, 901, 1, 10, 11, 12⟩, [], 99⟩
    (some 50) 0 (fun _ => Except.ok ⟨"ack"⟩)
    { data := [1, 2, 3], metadata := none } rfl

/-- C7 counterexample: at a concrete transaction with no order metadata,
bundle building returns the no-order error — it does not degenerate to an
empty bundle treating the raw transaction bytes as a host transaction, so
the claimed fallback path does not exist in this code. -/
theorem create_bundles_fallback_counterexample :
    create_bundles ⟨⟨"pecorino", some 7, 901, 1, 10, 11, 12⟩, [], 99⟩
      none 0 { data := [222, 173, 190, 239], metadata := none } =
      Except.error (DeliveryError.Network
        "No SignedOrder metadata in transaction for Signet bundle") :=
  rfl

/-- C7 (amended): for every fulfillment transaction with no order metadata
at all, bundle building does not fall back to producing any bundle list —
in particular no empty bundle carrying the raw transaction bytes as a host
transaction; it fails with the no-order error instead. -/
theorem create_bundles_no_fallback (d : SignetBundleDelivery)
    (rpc_block : Option Nat) (baseNonce : Nat) (tx : SolverTransaction)
    (h : tx.metadata = none) (bundles : List SignetEthBundle) :
    create_bundles d rpc_block baseNonce tx ≠ Except.ok bundles := by
  unfold create_bundles
  rw [h]
  intro hcontra
  cases hcontra

/-- Witness for create_bundles_no_fallback at a concrete metadata-less
transaction and the empty bundle list. -/
theorem create_bundles_no_fallback_witness :
    create_bundles ⟨⟨"pecorino", some 7, 901, 1, 10, 11, 12⟩, [], 99⟩
      none 0 { data := [222, 173, 190, 239], metadata := none } ≠
      Except.ok [] :=
  create_bundles_no_fallback
    ⟨⟨"pecorino", some 7, 901, 1, 10, 11, 12⟩, [], 99⟩ none 0
    { data := [222, 173, 190, 239], metadata := none } rfl []

/-- C5: for every signed order whose permit deadline fits in 64 bits, fill
creation succeeds — chains lacking a configured order-contract address are
skipped rather than causing failure — and a chain id carries a signed fill
exactly when it is the destination chain id of some output (the processed
set equals the distinct destination chain ids) and it is the configured
rollup or host chain (the two chains with configured contract
addresses). -/
theorem create_signed_fills_chains (d : SignetBundleDelivery)
    (order : SignedOrder) (hdl : order.permit.permit.deadline < 2 ^ 64) :
    ∃ fills, create_signed_fills d order = Except.ok fills ∧
      ∀ c : Nat, (∃ f, List.lookup c fills = some f) ↔
        (c ∈ order.outputs.map Output.chainId ∧
          (c = d.config.rollup_chain_id ∨ c = d.config.host_chain_id)) := by
  refine ⟨mk_signed_fills d.config order.permit.permit.deadline
    ((order.outputs.map Output.chainId).dedup), ?_, ?_⟩
  · unfold create_signed_fills
    rw [if_pos hdl]
  · intro c
    rw [lookup_mk_signed_fills]
    constructor
    · rintro ⟨f, hf⟩
      by_cases hm : c ∈ (order.outputs.map Output.chainId).dedup
      · rw [if_pos hm] at hf
        refine ⟨List.mem_dedup.mp hm, ?_⟩
        unfold fillAddress at hf
        by_cases h1 : c = d.config.rollup_chain_id
        · exact Or.inl h1
        · rw [if_neg h1] at hf
          by_cases h2 : c = d.config.host_chain_id
          · exact Or.inr h2
          · rw [if_neg h2] at hf
            cases hf
      · rw [if_neg hm] at hf
        cases hf
    · rintro ⟨hmem, hcfg⟩
      rw [if_pos (List.mem_dedup.mpr hmem)]
      unfold fillAddress
      rcases hcfg with h1 | h2
      · rw [if_pos h1]
        exact ⟨_, rfl⟩
      · by_cases h1 : c = d.config.rollup_chain_id
        · rw [if_pos h1]
          exact ⟨_, rfl⟩
        · rw [if_neg h1, if_pos h2]
          exact ⟨_, rfl⟩

/-- Witness for create_signed_fills_chains at a concrete order whose
outputs target the rollup chain 901, the host chain 1 and the unconfigured
chain 777. -/
theorem create_signed_fills_chains_witness :
    ∃ fills,
      create_signed_fills ⟨⟨"pecorino", none, 901, 1, 10, 11, 12⟩, [], 99⟩
        ⟨⟨⟨42, 1000⟩⟩, [⟨901, 5, 100, 6⟩, ⟨1, 5, 100, 6⟩, ⟨777, 5, 100, 6⟩]⟩ =
        Except.ok fills ∧
      ∀ c : Nat, (∃ f, List.lookup c fills = some f) ↔
        (c ∈ (SignedOrder.mk ⟨⟨42, 1000⟩⟩
            [⟨901, 5, 100, 6⟩, ⟨1, 5, 100, 6⟩, ⟨777, 5, 100, 6⟩]).outputs.map
            Output.chainId ∧
          (c = 901 ∨ c = 1)) :=
  create_signed_fills_chains ⟨⟨"pecorino", none, 901, 1, 10, 11, 12⟩, [], 99⟩
    ⟨⟨⟨42, 1000⟩⟩, [⟨901, 5, 100, 6⟩, ⟨1, 5, 100, 6⟩, ⟨777, 5, 100, 6⟩]⟩
    (by decide)

/-- C3: bundle submission is sequential and aborts at the first failure.
First conjunct: if every bundle before position k succeeds and the k-th
submission fails, the loop returns exactly the Network error naming the
failing bundle's target block number, and the bundles handed to the cache
client are precisely the first k + 1 — bundles after the failure are never
attempted, and the error value carries no record of the earlier successes.
Second conjunct: if every submission succeeds, the loop attempts every
bundle in order and returns the acknowledgment id of the last submitted
bundle. Third conjunct: the overall delivery call returns the loop's
outcome unchanged, the ok id wrapped as the transaction hash. -/
theorem submit_sequential_abort
    (forward_bundle :
      SignetEthBundle → Except String TxCacheSendBundleResponse) :
    (∀ (pre post : List SignetEthBundle) (b : SignetEthBundle)
        (e acc : String),
      (∀ p ∈ pre, ∃ r, forward_bundle p = Except.ok r) →
      forward_bundle b = Except.error e →
      (submit_bundles_loop forward_bundle (pre ++ b :: post) acc).1 =
        Except.error (DeliveryError.Network
          ("Failed to submit bundle for block " ++
            toString b.bundle.block_number ++ ": " ++ e)) ∧
      (submit_bundles_loop forward_bundle (pre ++ b :: post) acc).2 =
        pre ++ [b]) ∧
    (∀ (bundles : List SignetEthBundle) (acc : String) (bl : SignetEthBundle),
      (∀ p ∈ bundles, ∃ r, forward_bundle p = Except.ok r) →
      bundles.getLast? = some bl →
      ∃ r, forward_bundle bl = Except.ok r ∧
        (submit_bundles_loop forward_bundle bundles acc).1 =
          Except.ok r.id ∧
        (submit_bundles_loop forward_bundle bundles acc).2 = bundles) ∧
    (∀ (d : SignetBundleDelivery) (rpc_block : Option Nat) (baseNonce : Nat)
        (tx : SolverTransaction) (bundles : List SignetEthBundle),
      create_bundles d rpc_block baseNonce tx = Except.ok bundles →
      submit d rpc_block baseNonce forward_bundle tx =
        Except.map (fun last_bundle_id => TransactionHash.mk last_bundle_id)
          (submit_bundles_loop forward_bundle bundles "").1) := by
  refine ⟨?_, ?_, ?_⟩
  · intro pre
    induction pre with
    | nil =>
      intro post b e acc _ hb
      unfold submit_bundles_loop
      rw [List.nil_append]
      constructor
      · show (match forward_bundle b with
          | Except.error e =>
            (Except.error (DeliveryError.Network
              ("Failed to submit bundle for block " ++
                toString b.bundle.block_number ++ ": " ++ e)),
              [b])
          | Except.ok response =>
            let r := submit_bundles_loop forward_bundle post response.id
            (r.1, b :: r.2)).1 = _
        rw [hb]
      · show (match forward_bundle b with
          | Except.error e =>
            (Except.error (DeliveryError.Network
              ("Failed to submit bundle for block " ++
                toString b.bundle.block_number ++ ": " ++ e)),
              [b])
          | Except.ok response =>
            let r := submit_bundles_loop forward_bundle post response.id
            (r.1, b :: r.2)).2 = _
        rw [hb]
        simp
    | cons p pre' ih =>
      intro post b e acc hpre hb
      obtain ⟨r, hr⟩ := hpre p (List.mem_cons_self p pre')
      have hrest : ∀ q ∈ pre', ∃ r', forward_bundle q = Except.ok r' :=
        fun q hq => hpre q (List.mem_cons_of_mem p hq)
      have := ih post b e r.id hrest hb
      constructor
      · show (match forward_bundle p with
          | Except.error e =>
            (Except.error (DeliveryError.Network
              ("Failed to submit bundle for block " ++
                toString p.bundle.block_number ++ ": " ++ e)),
              [p])
          | Except.ok response =>
            let r := submit_bundles_loop forward_bundle
              (pre' ++ b :: post) response.id
            (r.1, p :: r.2)).1 = _
        rw [hr]
        exact this.1
      · show (match forward_bundle p with
          | Except.error e =>
            (Except.error (DeliveryError.Network
              ("Failed to submit bundle for block " ++
                toString p.bundle.block_number ++ ": " ++ e)),
              [p])
          | Except.ok response =>
            let r := submit_bundles_loop forward_bundle
              (pre' ++ b :: post) response.id
            (r.1, p :: r.2)).2 = _
        rw [hr]
        simpa using this.2
  · intro bundles
    induction bundles with
    | nil =>
      intro acc bl _ hlast
      cases hlast
    | cons b rest ih =>
      intro acc bl hall hlast
      obtain ⟨r, hr⟩ := hall b (List.mem_cons_self b rest)
      have hrest : ∀ q ∈ rest, ∃ r', forward_bundle q = Except.ok r' :=
        fun q hq => hall q (List.mem_cons_of_mem b hq)
      cases rest with
      | nil =>
        have hbl : b = bl := by
          simpa using hlast
        subst hbl
        refine ⟨r, hr, ?_, ?_⟩
        · show (match forward_bundle b with
            | Except.error e =>
              (Except.error (DeliveryError.Network
                ("Failed to submit bundle for block " ++
                  toString b.bundle.block_number ++ ": " ++ e)),
                [b])
            | Except.ok response =>
              let r := submit_bundles_loop forward_bundle [] response.id
              (r.1, b :: r.2)).1 = Except.ok r.id
          rw [hr]
          rfl
        · show (match forward_bundle b with
            | Except.error e =>
              (Except.error (DeliveryError.Network
                ("Failed to submit bundle for block " ++
                  toString b.bundle.block_number ++ ": " ++ e)),
                [b])
            | Except.ok response =>
              let r := submit_bundles_loop forward_bundle [] response.id
              (r.1, b :: r.2)).2 = [b]
          rw [hr]
          rfl
      | cons c t =>
        have hlast' : (c :: t).getLast? = some bl := by
          simpa [List.getLast?_cons_cons] using hlast
        obtain ⟨r', hr', hres, hatt⟩ := ih r.id bl hrest hlast'
        refine ⟨r', hr', ?_, ?_⟩
        · show (match forward_bundle b with
            | Except.error e =>
              (Except.error (DeliveryError.Network
                ("Failed to submit bundle for block " ++
                  toString b.bundle.block_number ++ ": " ++ e)),
                [b])
            | Except.ok response =>
              let r := submit_bundles_loop forward_bundle (c :: t)
                response.id
              (r.1, b :: r.2)).1 = Except.ok r'.id
          rw [hr]
          exact hres
        · show (match forward_bundle b with
            | Except.error e =>
              (Except.error (DeliveryError.Network
                ("Failed to submit bundle for block " ++
                  toString b.bundle.block_number ++ ": " ++ e)),
                [b])
            | Except.ok response =>
              let r := submit_bundles_loop forward_bundle (c :: t)
                response.id
              (r.1, b :: r.2)).2 = b :: c :: t
          rw [hr]
          simpa using hatt
  · intro d rpc_block baseNonce tx bundles hcreate
    unfold submit
    rw [hcreate]
    show (match (submit_bundles_loop forward_bundle bundles "").1 with
      | Except.error e => (Except.error e : Except DeliveryError TransactionHash)
      | Except.ok last_bundle_id =>
        Except.ok (TransactionHash.mk last_bundle_id)) = _
    cases hloop : (submit_bundles_loop forward_bundle bundles "").1 with
    | error e => rfl
    | ok last_bundle_id => rfl

/-- Witness for submit_sequential_abort: a concrete failure at the bundle
targeting block 3 after two successes, a concrete full success over two
bundles, and the delivery call over a concretely created bundle list. -/
theorem submit_sequential_abort_witness :
    ((submit_bundles_loop exampleForward
        ([exampleBundle 1, exampleBundle 2] ++ exampleBundle 3 ::
          [exampleBundle 4]) "").1 =
      Except.error (DeliveryError.Network
        ("Failed to submit bundle for block " ++
          toString (exampleBundle 3).bundle.block_number ++ ": " ++
          "boom")) ∧
      (submit_bundles_loop exampleForward
        ([exampleBundle 1, exampleBundle 2] ++ exampleBundle 3 ::
          [exampleBundle 4]) "").2 =
        [exampleBundle 1, exampleBundle 2] ++ [exampleBundle 3]) ∧
    (∃ r, exampleForward (exampleBundle 2) = Except.ok r ∧
      (submit_bundles_loop exampleForward
        [exampleBundle 1, exampleBundle 2] "").1 = Except.ok r.id ∧
      (submit_bundles_loop exampleForward
        [exampleBundle 1, exampleBundle 2] "").2 =
        [exampleBundle 1, exampleBundle 2]) ∧
    submit exampleDelivery (some 50) 0 exampleForward exampleTransaction =
      Except.map (fun last_bundle_id => TransactionHash.mk last_bundle_id)
        (submit_bundles_loop exampleForward
          ((create_bundles exampleDelivery (some 50) 0
            exampleTransaction).toOption.getD []) "").1 :=
  ⟨(submit_sequential_abort exampleForward).1
      [exampleBundle 1, exampleBundle 2] [exampleBundle 4] (exampleBundle 3)
      "boom" ""
      (by
        intro p hp
        fin_cases hp <;> exact ⟨⟨"ok"⟩, rfl⟩)
      (by rfl),
    (submit_sequential_abort exampleForward).2.1
      [exampleBundle 1, exampleBundle 2] "" (exampleBundle 2)
      (by
        intro p hp
        fin_cases hp <;> exact ⟨⟨"ok"⟩, rfl⟩)
      (by rfl),
    (submit_sequential_abort exampleForward).2.2 exampleDelivery (some 50) 0
      exampleTransaction
      ((create_bundles exampleDelivery (some 50) 0
        exampleTransaction).toOption.getD [])
      (by rfl)⟩

/-- C1: for every fulfillment transaction carrying a valid order payload
whose outputs target the configured rollup chain and host chain (the two
chains with configured order-contract addresses), with an HTTP RPC URL
configured for the rollup chain, bundle building succeeds and produces
exactly NUM_TARGET_BLOCKS = 10 bundles; the i-th bundle's target block
number is current_block + i + 1, so block numbers increase strictly by 1
starting at current_block + 1; every bundle carries the identical signed
rollup transaction list of length 2 — the rollup fill transaction first
and the order-initiation transaction last — and every bundle's host-fill
field is populated. -/
theorem create_bundles_fanout (d : SignetBundleDelivery)
    (rpc_block : Option Nat) (baseNonce : Nat) (tx : SolverTransaction)
    (order : SignedOrder)
    (hmeta : tx.metadata = some (TxMetadata.signedOrder order))
    (hdl : order.permit.permit.deadline < 2 ^ 64)
    (hru : d.config.rollup_chain_id ∈ order.outputs.map Output.chainId)
    (hho : d.config.host_chain_id ∈ order.outputs.map Output.chainId)
    (hnet : ∃ nc u,
      List.lookup d.config.rollup_chain_id d.networks = some nc ∧
      nc.rpc_urls.head?.bind RpcUrl.http = some u) :
    ∃ bundles rollup_txs,
      create_bundles d rpc_block baseNonce tx = Except.ok bundles ∧
      bundles.length = NUM_TARGET_BLOCKS ∧
      NUM_TARGET_BLOCKS = 10 ∧
      (∀ i, (h : i < bundles.length) →
        bundles[i].bundle.block_number =
          get_block_number d rpc_block + i + 1) ∧
      (∀ b ∈ bundles, b.bundle.txs = rollup_txs ∧ b.host_fills.isSome) ∧
      rollup_txs.length = 2 ∧
      (∃ e1 e2 f, rollup_txs = [e1, e2] ∧
        e1.request = TxRequest.fillTx f d.config.order_origin_address ∧
        e2.request = TxRequest.initiateTx order d.config.filler_recipient
          d.config.order_origin_address) := by
  obtain ⟨nc, u, hnc, hu⟩ := hnet
  have hfills : create_signed_fills d order = Except.ok
      (mk_signed_fills d.config order.permit.permit.deadline
        ((order.outputs.map Output.chainId).dedup)) := by
    unfold create_signed_fills
    rw [if_pos hdl]
  have hlookup_ru : List.lookup d.config.rollup_chain_id
      (mk_signed_fills d.config order.permit.permit.deadline
        ((order.outputs.map Output.chainId).dedup)) =
      some (SignedFill.mk d.config.rollup_chain_id
        d.config.order_origin_address order.permit.permit.deadline) := by
    rw [lookup_mk_signed_fills, if_pos (List.mem_dedup.mpr hru)]
    unfold fillAddress
    rw [if_pos rfl]
    rfl
  have hlookup_ho : (List.lookup d.config.host_chain_id
      (mk_signed_fills d.config order.permit.permit.deadline
        ((order.outputs.map Output.chainId).dedup))).isSome := by
    rw [lookup_mk_signed_fills, if_pos (List.mem_dedup.mpr hho)]
    unfold fillAddress
    by_cases h1 : d.config.host_chain_id = d.config.rollup_chain_id
    · rw [if_pos h1]
      rfl
    · rw [if_neg h1, if_pos rfl]
      rfl
  have hres : create_bundles d rpc_block baseNonce tx = Except.ok
      ((List.range NUM_TARGET_BLOCKS).map (fun i =>
        { bundle :=
            { txs :=
                [{ nonce := baseNonce + 0
                   sender := d.signer
                   gas_limit := DEFAULT_GAS_LIMIT
                   max_priority_fee_per_gas :=
                     GWEI_TO_WEI * DEFAULT_PRIORITY_FEE_MULTIPLIER
                   request := TxRequest.fillTx
                     (SignedFill.mk d.config.rollup_chain_id
                       d.config.order_origin_address
                       order.permit.permit.deadline)
                     d.config.order_origin_address },
                 { nonce := baseNonce + 1
                   sender := d.signer
                   gas_limit := DEFAULT_GAS_LIMIT
                   max_priority_fee_per_gas :=
                     GWEI_TO_WEI * DEFAULT_PRIORITY_FEE_MULTIPLIER
                   request := TxRequest.initiateTx order
                     d.config.filler_recipient
                     d.config.order_origin_address }]
              block_number := get_block_number d rpc_block + i + 1
              min_timestamp := none
              max_timestamp := none
              reverting_tx_hashes := []
              replacement_uuid := none }
          host_fills := List.lookup d.config.host_chain_id
            (mk_signed_fills d.config order.permit.permit.deadline
              ((order.outputs.map Output.chainId).dedup))
          host_txs := [] })) := by
    simp only [create_bundles, hmeta, deserialize_signed_order, hfills,
      hlookup_ru, sign_and_encode_txns, hnc, hu]
    rfl
  refine ⟨_,
    [{ nonce := baseNonce + 0
       sender := d.signer
       gas_limit := DEFAULT_GAS_LIMIT
       max_priority_fee_per_gas :=
         GWEI_TO_WEI * DEFAULT_PRIORITY_FEE_MULTIPLIER
       request := TxRequest.fillTx
         (SignedFill.mk d.config.rollup_chain_id
           d.config.order_origin_address order.permit.permit.deadline)
         d.config.order_origin_address },
     { nonce := baseNonce + 1
       sender := d.signer
       gas_limit := DEFAULT_GAS_LIMIT
       max_priority_fee_per_gas :=
         GWEI_TO_WEI * DEFAULT_PRIORITY_FEE_MULTIPLIER
       request := TxRequest.initiateTx order d.config.filler_recipient
         d.config.order_origin_address }],
    hres, ?_, rfl, ?_, ?_, rfl, ?_⟩
  · simp
  · intro i h
    simp only [List.getElem_map, List.getElem_range]
  · intro b hb
    obtain ⟨i, _, hib⟩ := List.mem_map.mp hb
    subst hib
    exact ⟨rfl, hlookup_ho⟩
  · exact ⟨_, _, _, rfl, rfl, rfl⟩

/-- Witness for create_bundles_fanout on the concrete example delivery
instance, order and fulfillment transaction, at observed rollup block
50. -/
theorem create_bundles_fanout_witness :
    ∃ bundles rollup_txs,
      create_bundles exampleDelivery (some 50) 0 exampleTransaction =
        Except.ok bundles ∧
      bundles.length = NUM_TARGET_BLOCKS ∧
      NUM_TARGET_BLOCKS = 10 ∧
      (∀ i, (h : i < bundles.length) →
        bundles[i].bundle.block_number =
          get_block_number exampleDelivery (some 50) + i + 1) ∧
      (∀ b ∈ bundles, b.bundle.txs = rollup_txs ∧ b.host_fills.isSome) ∧
      rollup_txs.length = 2 ∧
      (∃ e1 e2 f, rollup_txs = [e1, e2] ∧
        e1.request = TxRequest.fillTx f
          exampleDelivery.config.order_origin_address ∧
        e2.request = TxRequest.initiateTx exampleOrder
          exampleDelivery.config.filler_recipient
          exampleDelivery.config.order_origin_address) :=
  create_bundles_fanout exampleDelivery (some 50) 0 exampleTransaction
    exampleOrder rfl (by decide) (by decide) (by decide)
    ⟨{ rpc_urls := [{ http := some "http rollup url" }] },
      "http rollup url", rfl, rfl⟩

end Signet
